import Mathlib

/-!
Verification of the position/order/signal core of the botKidSkeith trading
server.  The TypeScript source is shallowly embedded: Prisma records become
structures over `ℚ`/`String`, the keyed store becomes lists, fallible calls
become `Except`, and JavaScript truthiness (`x || y`, `x ? a : b`) is made
explicit wherever the source relies on it.
-/

namespace BotKid

/-- Position lifecycle status (`status` column of the `Position` model). -/
inductive PositionStatus
  | OPEN
  | PARTIALLY_CLOSED
  | CLOSED
deriving DecidableEq, Repr

/-- Close reason accepted by `closePosition` (`services/position.ts`). -/
inductive CloseReason
  | TAKE_PROFIT
  | STOP_LOSS
  | MANUAL
  | SIGNAL
deriving DecidableEq, Repr

/-- Tracked order (`Trade` model) status. -/
inductive TradeStatus
  | PENDING
  | PLACED
  | PARTIAL
  | FILLED
  | CANCELLED
  | FAILED
deriving DecidableEq, Repr

/-- Tracked order side (the `type` column: BUY or SELL). -/
inductive TradeSide
  | BUY
  | SELL
deriving DecidableEq, Repr

/-- Signal status (`status` column of the `Signal` model). -/
inductive SignalStatus
  | PENDING
  | APPROVED
  | REJECTED
  | EXECUTED
  | SKIPPED
  | EXPIRED
deriving DecidableEq, Repr

/-- Signal recommended action. -/
inductive SignalAction
  | BUY
  | SELL
  | HOLD
deriving DecidableEq, Repr

/-- A `Position` record.  Timestamps are abstract naturals. -/
structure Position where
  id : String
  userId : String
  pair : String
  amount : ℚ
  entryPrice : ℚ
  cost : ℚ
  stopLoss : Option ℚ := none
  takeProfit : Option ℚ := none
  signalId : Option String := none
  entryTradeId : Option String := none
  status : PositionStatus := .OPEN
  exitPrice : Option ℚ := none
  exitAmount : Option ℚ := none
  pnl : Option ℚ := none
  pnlPercent : Option ℚ := none
  closeReason : Option CloseReason := none
  closedAt : Option ℕ := none
  exitTradeId : Option String := none
deriving DecidableEq, Repr

/-- A tracked order (`Trade` record).  `side` embeds the source's `type`. -/
structure Trade where
  id : String
  userId : String
  orderId : Option String := none
  pair : String
  side : TradeSide
  price : ℚ
  amount : ℚ
  cost : ℚ
  status : TradeStatus
  signalId : Option String := none
  stopLoss : Option ℚ := none
  takeProfit : Option ℚ := none
  filledAt : Option ℕ := none
deriving DecidableEq, Repr

/-- A persisted `Signal` record (the fields the claims mention). -/
structure SignalRec where
  id : String
  userId : String
  pair : String
  action : SignalAction
  confidence : ℚ
  status : SignalStatus
deriving DecidableEq, Repr

/-- The durable store (Prisma database): positions, trades, signals. -/
structure Store where
  positions : List Position := []
  trades : List Trade := []
  signals : List SignalRec := []
deriving DecidableEq, Repr

/-- JavaScript `x || fallback` on an optional numeric value: `0` (and
`null`/`undefined`) is falsy and picks the fallback. -/
def jsOrQ (x : Option ℚ) (fallback : ℚ) : ℚ :=
  match x with
  | some v => if v = 0 then fallback else v
  | none => fallback

/-- JavaScript `x || undefined` on an optional numeric value: a present
zero collapses to `undefined`. -/
def jsTruthy (x : Option ℚ) : Option ℚ :=
  match x with
  | some v => if v = 0 then none else some v
  | none => none

/-- `prisma.position.findUnique({ where: { id } })` over the list store:
the first record with the given id. -/
def findPos : List Position → String → Option Position
  | [], _ => none
  | p :: ps, x => if p.id = x then some p else findPos ps x

/-- Errors raised by the Position Lifecycle Manager. -/
inductive PosError
  | NotFound (id : String)
  | InvalidState (msg : String)
deriving DecidableEq, Repr

/-- Parameters of `openPosition` (`OpenPositionParams`). -/
structure OpenPositionParams where
  userId : String
  pair : String
  amount : ℚ
  entryPrice : ℚ
  cost : ℚ
  signalId : Option String := none
  stopLoss : Option ℚ := none
  takeProfit : Option ℚ := none
  entryTradeId : Option String := none
deriving DecidableEq, Repr

/-- Parameters of `closePosition` (`ClosePositionParams`). -/
structure ClosePositionParams where
  positionId : String
  exitPrice : ℚ
  exitAmount : Option ℚ := none
  reason : CloseReason
  exitTradeId : Option String := none
deriving DecidableEq, Repr

/-- `openPosition` (`services/position.ts`): creates an OPEN record.
`stopLoss: stopLoss || undefined` and `takeProfit: takeProfit || undefined`
drop present zeros, via `jsTruthy`.  `newId` stands for the generated row id. -/
def openPosition (newId : String) (store : List Position)
    (params : OpenPositionParams) : Position × List Position :=
  let position : Position :=
    { id := newId
      userId := params.userId
      pair := params.pair
      amount := params.amount
      entryPrice := params.entryPrice
      cost := params.cost
      stopLoss := jsTruthy params.stopLoss
      takeProfit := jsTruthy params.takeProfit
      signalId := params.signalId
      entryTradeId := params.entryTradeId
      status := .OPEN }
  (position, store ++ [position])

/-- `closePosition` (`services/position.ts`).  Looks the position up by id
(`NotFound` when missing), computes `amount := exitAmount || position.amount`
(JS `||`: a provided zero falls back to the full amount), P&L from entry and
exit values, and the new status from
`exitAmount && exitAmount < position.amount ? 'PARTIALLY_CLOSED' : 'CLOSED'`.
The record is overwritten unconditionally: the current status is never
inspected.  `now` stands for `new Date()`. -/
def closePosition (now : ℕ) (store : List Position)
    (params : ClosePositionParams) : Except PosError (Position × List Position) :=
  match findPos store params.positionId with
  | none => .error (.NotFound params.positionId)
  | some position =>
    let entryPriceNum := position.entryPrice
    let amount := jsOrQ params.exitAmount position.amount
    let exitValue := amount * params.exitPrice
    let entryValue := amount * entryPriceNum
    let pnl := exitValue - entryValue
    let pnlPercent := (params.exitPrice - entryPriceNum) / entryPriceNum * 100
    let newStatus : PositionStatus :=
      match params.exitAmount with
      | some v => if v ≠ 0 ∧ v < position.amount then .PARTIALLY_CLOSED else .CLOSED
      | none => .CLOSED
    let updated : Position :=
      { position with
        status := newStatus
        exitPrice := some params.exitPrice
        exitAmount := some amount
        pnl := some pnl
        pnlPercent := some pnlPercent
        closedAt := some now
        closeReason := some params.reason
        exitTradeId :=
          match params.exitTradeId with
          | some t => some t
          | none => position.exitTradeId }
    .ok (updated, store.map fun p => if p.id = params.positionId then updated else p)

/-- Exit reason returned by `checkExitConditions`. -/
inductive ExitReason
  | TAKE_PROFIT
  | STOP_LOSS
deriving DecidableEq, Repr

/-- `checkExitConditions` (`services/position.ts`): the stop-loss test runs
first and returns early.  JS truthiness makes a zero threshold behave as
unset (`if (stopLoss && currentPrice <= stopLoss)`), hence the `v ≠ 0`
guards. -/
def checkExitConditions (position : Position) (currentPrice : ℚ) :
    Option ExitReason :=
  let slHit : Bool :=
    match position.stopLoss with
    | some v => decide (¬ v = 0) && decide (currentPrice ≤ v)
    | none => false
  let tpHit : Bool :=
    match position.takeProfit with
    | some v => decide (¬ v = 0) && decide (v ≤ currentPrice)
    | none => false
  if slHit then some .STOP_LOSS
  else if tpHit then some .TAKE_PROFIT
  else none

/-- Modelled from the spec's words for claim C4 (refinement comparison only):
`exitAmount := exitAmount ?? fullAmount`, `pnl = exitAmount*(exit-entry)`,
status `PARTIALLY_CLOSED` iff `exitAmount < fullAmount`. -/
def closePositionClaimSpec (entryPrice fullAmount exitPrice : ℚ)
    (exitAmount : Option ℚ) : ℚ × ℚ × PositionStatus :=
  let a := exitAmount.getD fullAmount
  (a * (exitPrice - entryPrice),
   (exitPrice - entryPrice) / entryPrice * 100,
   if a < fullAmount then .PARTIALLY_CLOSED else .CLOSED)

/-- Modelled from the spec's words for claim C5 (refinement comparison only):
STOP_LOSS if `stopLoss` is set (non-null) and price ≤ it, else TAKE_PROFIT if
`takeProfit` is set and price ≥ it. -/
def checkExitConditionsClaimSpec (position : Position) (currentPrice : ℚ) :
    Option ExitReason :=
  match position.stopLoss with
  | some v =>
    if currentPrice ≤ v then some .STOP_LOSS
    else
      match position.takeProfit with
      | some w => if w ≤ currentPrice then some .TAKE_PROFIT else none
      | none => none
  | none =>
    match position.takeProfit with
    | some w => if w ≤ currentPrice then some .TAKE_PROFIT else none
    | none => none

/-! ### Order Reconciler (`syncPendingOrders`, `services/scheduler.ts`) -/

/-- Gateway response for one order (`api.getOrder(...).order`): the fields
the reconciler reads.  A missing/empty `status` string is falsy in JS. -/
structure GatewayOrder where
  status : Option String := none
  remain_idr : Option String := none
deriving DecidableEq, Repr

/-- `order.status || (order.remain_idr === '0' ? 'filled' : 'open')`. -/
def gatewayOrderStatus (order : GatewayOrder) : String :=
  let fallback := if order.remain_idr = some "0" then "filled" else "open"
  match order.status with
  | some s => if s = "" then fallback else s
  | none => fallback

/-- The `switch (orderStatus)` mapping gateway status to local status. -/
def mapOrderStatus (orderStatus : String) : TradeStatus :=
  if orderStatus = "filled" then .FILLED
  else if orderStatus = "partial" then .PARTIAL
  else if orderStatus = "cancelled" then .CANCELLED
  else .PLACED

/-- One iteration of the `syncPendingOrders` loop for one fetched trade.
`hasKeys` is whether the owner has both API keys; `gateway` the outcome of
`api.getOrder` (an error is caught per trade, leaving the store unchanged);
`newPosId` the row id a created position would get; `now` is `new Date()`.
The position-existence check and the position/signal writes mirror the
source lines 210-261. -/
def syncOneTrade (now : ℕ) (newPosId : String) (hasKeys : Bool)
    (gateway : Except String GatewayOrder) (trade : Trade) (store : Store) :
    Store :=
  if ¬ hasKeys then store
  else
    match gateway with
    | .error _ => store
    | .ok order =>
      let newStatus := mapOrderStatus (gatewayOrderStatus order)
      if newStatus = trade.status then store
      else
        let trades1 := store.trades.map fun t =>
          if t.id = trade.id then
            { t with
              status := newStatus
              filledAt := if newStatus = .FILLED then some now else t.filledAt }
          else t
        let store1 := { store with trades := trades1 }
        if newStatus = .FILLED ∧ trade.side = .BUY then
          let existingPosition := store1.positions.find? fun p =>
            decide (p.userId = trade.userId ∧ p.entryTradeId = trade.orderId)
          match existingPosition with
          | some _ => store1
          | none =>
            let opened := openPosition newPosId store1.positions
              { userId := trade.userId
                pair := trade.pair
                amount := trade.amount
                entryPrice := trade.price
                cost := trade.cost
                signalId := trade.signalId
                stopLoss := trade.stopLoss
                takeProfit := trade.takeProfit
                entryTradeId := trade.orderId }
            let signals1 :=
              match trade.signalId with
              | some sid => store1.signals.map fun s =>
                  if s.id = sid then { s with status := .EXECUTED } else s
              | none => store1.signals
            { store1 with positions := opened.2, signals := signals1 }
        else store1

/-- Number of positions referencing exchange order id `oid` as their entry
order, for user `u`. -/
def countPositionsForOrder (positions : List Position) (u oid : String) : ℕ :=
  (positions.filter fun p =>
    decide (p.userId = u ∧ p.entryTradeId = some oid)).length

/-! ### Position Monitor (`checkPositionsForSLTP`, `services/scheduler.ts`) -/

/-- The exit reason a `checkExitConditions` trigger passes to
`closePosition`. -/
def exitToClose : ExitReason → CloseReason
  | .TAKE_PROFIT => .TAKE_PROFIT
  | .STOP_LOSS => .STOP_LOSS

/-- The record `closePosition` writes for a full (no `exitAmount`) close of
`p` at `price` with reason `r` at time `now`. -/
def closedVersion (p : Position) (price : ℚ) (r : CloseReason) (now : ℕ) :
    Position :=
  { p with
    status := .CLOSED
    exitPrice := some price
    exitAmount := some p.amount
    pnl := some (p.amount * price - p.amount * p.entryPrice)
    pnlPercent := some ((price - p.entryPrice) / p.entryPrice * 100)
    closedAt := some now
    closeReason := some r }

/-- One iteration of the `checkPositionsForSLTP` loop for one fetched open
position, threading the evolving store.  `summaries` is the ticker snapshot
(pair → last price), `hasKeys` per-user credential presence, `tradeOracle`
the outcome of the SELL order placement for this position (an error is the
thrown `tradeError`, caught per position: the store is left unchanged). -/
def monitorStep (now : ℕ) (summaries : String → Option ℚ)
    (hasKeys : String → Bool) (tradeOracle : String → Except String ℕ)
    (st : Store) (position : Position) : Store :=
  match summaries position.pair with
  | none => st
  | some currentPrice =>
    match checkExitConditions position currentPrice with
    | none => st
    | some reason =>
      if ¬ hasKeys position.userId then st
      else
        match tradeOracle position.id with
        | .error _ => st
        | .ok _orderId =>
          match closePosition now st.positions
              { positionId := position.id
                exitPrice := currentPrice
                reason := exitToClose reason } with
          | .error _ => st
          | .ok res => { st with positions := res.2 }

/-- `checkPositionsForSLTP`: fetch all OPEN positions, then run the loop.
Per-position failures are absorbed inside `monitorStep` (the source's inner
`try/catch`), so the cycle is a total function on its inputs. -/
def checkPositionsForSLTP (now : ℕ) (summaries : String → Option ℚ)
    (hasKeys : String → Bool) (tradeOracle : String → Except String ℕ)
    (store : Store) : Store :=
  let openPositions := store.positions.filter fun p => decide (p.status = .OPEN)
  openPositions.foldl (monitorStep now summaries hasKeys tradeOracle) store

/-- The outcome of one monitor iteration for position `p` in isolation:
unchanged unless its pair has a ticker, an exit condition triggers, the owner
has keys and the SELL succeeds, in which case it is the closed record. -/
def monitorOutcome (now : ℕ) (summaries : String → Option ℚ)
    (hasKeys : String → Bool) (tradeOracle : String → Except String ℕ)
    (p : Position) : Position :=
  match summaries p.pair with
  | none => p
  | some currentPrice =>
    match checkExitConditions p currentPrice with
    | none => p
    | some reason =>
      if ¬ hasKeys p.userId then p
      else
        match tradeOracle p.id with
        | .error _ => p
        | .ok _ => closedVersion p currentPrice (exitToClose reason) now

/-! ### Signal Scheduler, signal endpoints, legacy analysis worker -/

/-- The structured result of `generateSignal` (the fields these paths use). -/
structure SignalResult where
  action : SignalAction
  confidence : ℚ
  entryPrice : ℚ := 0
  targetPrice : ℚ := 0
  stopLoss : ℚ := 0
  amountPercent : ℚ := 0
deriving DecidableEq, Repr

/-- Per-user settings (`UserSettings` model), the fields these paths read.
`tradingMode` is the raw string the source compares with `'AUTONOMOUS'`. -/
structure UserSettings where
  userId : String
  botActive : Bool := true
  analysisIntervalMins : ℚ := 30
  allowedPairs : List String := []
  maxOpenPositions : ℕ
  minConfidenceToTrade : ℚ
  tradingMode : String := "COPILOT"
deriving DecidableEq, Repr

/-- A store/exchange side effect performed by a handler or worker, in order. -/
inductive Effect
  | createSignal (s : SignalRec)
  | createPosition (p : Position)
  | createTrade (t : Trade)
  | updateTrade (id : String) (status : TradeStatus)
  | updateSignal (id : String) (status : SignalStatus)
  | closePos (positionId : String) (exitPrice : ℚ) (reason : CloseReason)
  | placeOrder (pair : String) (side : TradeSide) (price : ℚ) (amount : ℚ)
  | notify (userId : String) (kind : String)
deriving DecidableEq, Repr

/-- Result of one user's turn inside `runScheduledAnalysis`: the effects
performed and whether `lastAnalysisTime.set(userId, now)` ran. -/
structure AnalysisOutcome where
  effects : List Effect := []
  lastRunSet : Bool := false
deriving DecidableEq, Repr

/-- One user's turn of `runScheduledAnalysis` (`services/scheduler.ts`,
lines 292-399).  `lastRun` is the stored timestamp (0 when absent), `pair`
the randomly chosen pair, `signalResult` the `generateSignal` outcome (an
error is caught per user).  `analysisIntervalMins || 30` makes a zero
interval fall back to 30.  Note the low-confidence branch only records the
timestamp — it persists nothing. -/
def runAnalysisForUser (now lastRun : ℤ) (settings : UserSettings)
    (pair : String) (openPositionsCount : ℕ) (existingPositionForPair : Bool)
    (signalResult : Except String (Option SignalResult))
    (newSignalId : String) : AnalysisOutcome :=
  let minInterval : ℚ :=
    (if settings.analysisIntervalMins = 0 then 30
     else settings.analysisIntervalMins) * 60 * 1000
  if ((now - lastRun : ℤ) : ℚ) < minInterval then {}
  else if settings.maxOpenPositions ≤ openPositionsCount then {}
  else if existingPositionForPair then {}
  else
    match signalResult with
    | .error _ => {}
    | .ok none => { lastRunSet := true }
    | .ok (some s) =>
      if s.action = .HOLD then { lastRunSet := true }
      else if s.confidence < settings.minConfidenceToTrade then
        { lastRunSet := true }
      else
        { effects :=
            [ .createSignal
                { id := newSignalId
                  userId := settings.userId
                  pair := pair
                  action := s.action
                  confidence := s.confidence
                  status := .PENDING }
              , .notify settings.userId "SIGNAL" ]
          lastRunSet := true }

/-- `POST /api/signals/generate` (`routes/signals.ts`): the store effects it
performs.  A HOLD result is returned for display without persistence; a
below-threshold result is persisted with status SKIPPED; otherwise the
signal is persisted PENDING. -/
def generateSignalEndpoint (settings : UserSettings) (pair : String)
    (existingPositionForPair : Bool) (openPositionsCount : ℕ)
    (result : Option SignalResult) (newSignalId : String) : List Effect :=
  if settings.allowedPairs ≠ [] ∧ pair ∉ settings.allowedPairs then []
  else if existingPositionForPair then []
  else if settings.maxOpenPositions ≤ openPositionsCount then []
  else
    match result with
    | none => []
    | some s =>
      if s.action = .HOLD then []
      else if s.confidence < settings.minConfidenceToTrade then
        [ .createSignal
            { id := newSignalId
              userId := settings.userId
              pair := pair
              action := s.action
              confidence := s.confidence
              status := .SKIPPED } ]
      else
        [ .createSignal
            { id := newSignalId
              userId := settings.userId
              pair := pair
              action := s.action
              confidence := s.confidence
              status := .PENDING } ]

/-- `POST /api/jobs/analyze` (`routes/jobs.ts`, setInterval era): resolves
the target pair (`pair ||` falls back to the first allowed pair or
`btc_idr`), calls `generateSignal`, and persists any non-null result as
PENDING — there is no check on the action. -/
def jobsAnalyzeEndpoint (settings : UserSettings) (pairParam : Option String)
    (result : Option SignalResult) (newSignalId : String) : List Effect :=
  let fallback :=
    match settings.allowedPairs with
    | p :: _ => p
    | [] => "btc_idr"
  let targetPair :=
    match pairParam with
    | some s => if s = "" then fallback else s
    | none => fallback
  match result with
  | none => []
  | some s =>
    [ .createSignal
        { id := newSignalId
          userId := settings.userId
          pair := targetPair
          action := s.action
          confidence := s.confidence
          status := .PENDING } ]

/-- The legacy BullMQ `analysisWorker` job body (`jobs/index.ts`): the store
effects of one analysis job.  `botAmount`/`positionToClose` feed the
autonomous SELL branch.  In AUTONOMOUS mode a BUY signal opens a position
immediately from an estimated balance — no exchange order is placed and no
fill is awaited. -/
def analysisWorkerStep (settings : UserSettings) (userId pair : String)
    (existingPositionForPair : Bool) (openPositionsCount : ℕ)
    (signal : Option SignalResult) (newSignalId newPosId : String)
    (botAmount : ℚ) (positionToClose : Option Position) : List Effect :=
  if ¬ settings.botActive then []
  else if existingPositionForPair then []
  else if settings.maxOpenPositions ≤ openPositionsCount then []
  else
    match signal with
    | none => []
    | some s =>
      if s.action = .HOLD then []
      else if s.confidence < settings.minConfidenceToTrade then
        [ .createSignal
            { id := newSignalId
              userId := userId
              pair := pair
              action := s.action
              confidence := s.confidence
              status := .SKIPPED } ]
      else
        let signalStatus : SignalStatus :=
          if settings.tradingMode = "AUTONOMOUS" then .APPROVED else .PENDING
        let base : List Effect :=
          [ .createSignal
              { id := newSignalId
                userId := userId
                pair := pair
                action := s.action
                confidence := s.confidence
                status := signalStatus }
            , .notify userId "SIGNAL" ]
        if settings.tradingMode = "AUTONOMOUS" ∧ s.action ≠ .HOLD then
          match s.action with
          | .SELL =>
            if botAmount = 0 then base ++ [.updateSignal newSignalId .SKIPPED]
            else
              match positionToClose with
              | some ptc =>
                base ++
                  [ .closePos ptc.id s.entryPrice .SIGNAL
                    , .updateSignal newSignalId .EXECUTED
                    , .notify userId "TRADE" ]
              | none => base
          | .BUY =>
            let estimatedBalance : ℚ := 10000000
            let cost := estimatedBalance * s.amountPercent / 100
            let amount := cost / s.entryPrice
            base ++
              [ .createPosition
                  { id := newPosId
                    userId := userId
                    pair := pair
                    amount := amount
                    entryPrice := s.entryPrice
                    cost := cost
                    stopLoss := jsTruthy (some s.stopLoss)
                    takeProfit := jsTruthy (some s.targetPrice)
                    signalId := some newSignalId
                    status := .OPEN }
                , .updateSignal newSignalId .EXECUTED
                , .notify userId "TRADE" ]
          | .HOLD => base
        else base

/-! ### Scheduler Orchestrator (`startScheduler`, `services/scheduler.ts`) -/

/-- The three periodic cycles. -/
inductive JobKind
  | positionMonitor
  | orderSync
  | analysis
deriving DecidableEq, Repr

/-- One registered timer: which cycle, the `setInterval` period in
milliseconds, and whether the cycle was also invoked immediately. -/
structure ScheduledJob where
  job : JobKind
  intervalMs : ℕ
  runImmediately : Bool
deriving DecidableEq, Repr

/-- Orchestrator state: the `isRunning` flag and the registered timers. -/
structure SchedulerState where
  isRunning : Bool := false
  jobs : List ScheduledJob := []
deriving DecidableEq, Repr

/-- `startScheduler` (`services/scheduler.ts`, lines 409-433): a no-op when
already running; otherwise registers the position monitor and order sync
every `60 * 1000` ms with an immediate run each, and the analysis cycle
every `5 * 60 * 1000` ms with no immediate run. -/
def startScheduler (st : SchedulerState) : SchedulerState :=
  if st.isRunning then st
  else
    { isRunning := true
      jobs :=
        [ ⟨.positionMonitor, 60 * 1000, true⟩
          , ⟨.orderSync, 60 * 1000, true⟩
          , ⟨.analysis, 5 * 60 * 1000, false⟩ ] }

/-! ### Concrete records used by counterexamples and witnesses -/

/-- A CLOSED position with its exit fields set (for claim C1). -/
def cexClosedPos : Position :=
  { id := "p1", userId := "u1", pair := "btc_idr", amount := 2,
    entryPrice := 100, cost := 200, status := .CLOSED,
    exitPrice := some 110, exitAmount := some 2, pnl := some 20,
    pnlPercent := some 10, closeReason := some .TAKE_PROFIT,
    closedAt := some 1000 }

/-- An OPEN position with entry price 100 and amount 2 (for claim C4). -/
def demoOpenPos : Position :=
  { id := "p1", userId := "u1", pair := "btc_idr", amount := 2,
    entryPrice := 100, cost := 200, status := .OPEN }

/-! ### C1 — re-closing a CLOSED position -/

/-- Claim C1, counterexample: `closePosition` on an already-CLOSED position
is not rejected with `InvalidState` — it succeeds (`.ok`) and overwrites the
exit fields (exit price 110 becomes 90, pnl 20 becomes -20, the closed
timestamp moves), so the record is not left unchanged. -/
theorem closePosition_reclose_cex :
    (closePosition 2000 [cexClosedPos]
        { positionId := "p1", exitPrice := 90, reason := .MANUAL }).toOption.isSome
      = true ∧
    ((closePosition 2000 [cexClosedPos]
        { positionId := "p1", exitPrice := 90, reason := .MANUAL }).toOption.map
      fun r => (r.1.exitPrice, r.1.pnl, r.1.closedAt, r.1.closeReason))
      = some (some 90, some (-20), some 2000, some .MANUAL) ∧
    ((closePosition 2000 [cexClosedPos]
        { positionId := "p1", exitPrice := 90, reason := .MANUAL }).toOption.map
      fun r => r.1) ≠ some cexClosedPos := by
  norm_num [closePosition, findPos, cexClosedPos, jsOrQ, List.find?,
    Except.toOption]

/-- Claim C1 (amended): `closePosition` checks only that the id exists
(`NotFound`); it never inspects the current status, so invoking it on an
already-CLOSED position succeeds and overwrites every exit field (exit
price, close reason, closed timestamp, recomputed P&L), leaving the status
CLOSED again for a full close. -/
theorem closePosition_reclose_overwrites (now : ℕ) (store : List Position)
    (params : ClosePositionParams) (p : Position)
    (hfind : findPos store params.positionId = some p)
    (hclosed : p.status = .CLOSED) :
    ∃ upd store', closePosition now store params = .ok (upd, store') ∧
      upd.exitPrice = some params.exitPrice ∧
      upd.closeReason = some params.reason ∧
      upd.closedAt = some now ∧
      (params.exitAmount = none → upd.status = .CLOSED) := by
  unfold closePosition
  rw [hfind]
  refine ⟨_, _, rfl, rfl, rfl, rfl, fun h => ?_⟩
  simp [h]

/-- Witness for C1 (amended) at the CLOSED demo position. -/
theorem closePosition_reclose_overwrites_witness :
    (findPos [cexClosedPos] "p1" = some cexClosedPos ∧
      cexClosedPos.status = .CLOSED) ∧
    (∃ upd store',
      closePosition 2000 [cexClosedPos]
          { positionId := "p1", exitPrice := 90, reason := .MANUAL }
        = .ok (upd, store') ∧
      upd.exitPrice = some (90 : ℚ) ∧
      upd.closeReason = some CloseReason.MANUAL ∧
      upd.closedAt = some 2000 ∧
      ((none : Option ℚ) = none → upd.status = .CLOSED)) :=
  ⟨⟨rfl, rfl⟩,
    closePosition_reclose_overwrites 2000 [cexClosedPos]
      { positionId := "p1", exitPrice := 90, reason := .MANUAL }
      cexClosedPos rfl rfl⟩

/-! ### C4 — close computation -/

/-- Claim C4, counterexample: with a provided `exitAmount` of 0 the claim's
formula (`exitAmount := x ?? a`, JS `??`) predicts pnl 0 and status
PARTIALLY_CLOSED, but the source uses JS `||`, so a zero exit amount falls
back to the full amount: pnl 20 and status CLOSED. -/
theorem closePosition_zero_exitAmount_cex :
    ((closePosition 1000 [demoOpenPos]
        { positionId := "p1", exitPrice := 110, exitAmount := some 0,
          reason := .TAKE_PROFIT }).toOption.map
      fun r => (r.1.pnl, r.1.status))
      = some (some 20, .CLOSED) ∧
    closePositionClaimSpec 100 2 110 (some 0) = (0, 10, .PARTIALLY_CLOSED) ∧
    ((20 : ℚ) ≠ 0 ∧ PositionStatus.CLOSED ≠ .PARTIALLY_CLOSED) := by
  refine ⟨?_, ?_, by norm_num, by decide⟩ <;>
    norm_num [closePosition, closePositionClaimSpec, findPos, demoOpenPos,
      jsOrQ, List.find?, Except.toOption]

/-- Claim C4 (amended): `closePosition` computes
`exitAmount := (x provided and nonzero) ? x : fullAmount` (JS `||`, so a
provided zero means a full close), `pnl = exitAmount*(exitPrice-entryPrice)`,
`pnlPercent = (exitPrice-entryPrice)/entryPrice*100`, and status
PARTIALLY_CLOSED exactly when a nonzero `exitAmount` below the full amount
was provided, else CLOSED.  With entry 100, amount 2, exit 110 and no
`exitAmount` this yields pnl 20, pnlPercent 10, status CLOSED (witness). -/
theorem closePosition_computation (now : ℕ) (store : List Position)
    (params : ClosePositionParams) (p : Position)
    (hfind : findPos store params.positionId = some p)
    (he : p.entryPrice ≠ 0) :
    ∃ upd store', closePosition now store params = .ok (upd, store') ∧
      upd.exitAmount = some (jsOrQ params.exitAmount p.amount) ∧
      upd.pnl = some (jsOrQ params.exitAmount p.amount *
        (params.exitPrice - p.entryPrice)) ∧
      upd.pnlPercent = some ((params.exitPrice - p.entryPrice) /
        p.entryPrice * 100) ∧
      upd.status = (match params.exitAmount with
        | some v => if v ≠ 0 ∧ v < p.amount then .PARTIALLY_CLOSED else .CLOSED
        | none => .CLOSED) := by
  unfold closePosition
  rw [hfind]
  exact ⟨_, _, rfl, rfl, by ring_nf, rfl, rfl⟩

/-- Witness for C4 (amended): the spec's worked example
(entry 100, amount 2, exit 110, no exitAmount → pnl 20, pct 10, CLOSED). -/
theorem closePosition_computation_witness :
    (findPos [demoOpenPos] "p1" = some demoOpenPos ∧
      demoOpenPos.entryPrice ≠ 0) ∧
    (∃ upd store',
      closePosition 1000 [demoOpenPos]
          { positionId := "p1", exitPrice := 110, reason := .TAKE_PROFIT }
        = .ok (upd, store') ∧
      upd.exitAmount = some (jsOrQ none demoOpenPos.amount) ∧
      upd.pnl = some (jsOrQ none demoOpenPos.amount *
        ((110 : ℚ) - demoOpenPos.entryPrice)) ∧
      upd.pnlPercent = some (((110 : ℚ) - demoOpenPos.entryPrice) /
        demoOpenPos.entryPrice * 100) ∧
      upd.status = PositionStatus.CLOSED) :=
  ⟨⟨rfl, by norm_num [demoOpenPos]⟩,
    closePosition_computation 1000 [demoOpenPos]
      { positionId := "p1", exitPrice := 110, reason := .TAKE_PROFIT }
      demoOpenPos rfl (by norm_num [demoOpenPos])⟩

/-! ### C5 — exit-condition evaluation -/

/-- A position whose take-profit is the (falsy) value 0 (for claim C5). -/
def cexZeroTpPos : Position :=
  { id := "p1", userId := "u1", pair := "btc_idr", amount := 1,
    entryPrice := 10, cost := 10, takeProfit := some 0 }

/-- Claim C5, counterexample: with `takeProfit` set to 0 and current price 5
the claim's reading ("takeProfit is set and price >= it") yields
TAKE_PROFIT, but the source's truthiness check (`if (takeProfit && ...)`)
treats the zero threshold as unset and yields no action. -/
theorem checkExitConditions_zero_threshold_cex :
    checkExitConditions cexZeroTpPos 5 = none ∧
    checkExitConditionsClaimSpec cexZeroTpPos 5 = some .TAKE_PROFIT ∧
    (none : Option ExitReason) ≠ some .TAKE_PROFIT := by
  refine ⟨?_, ?_, by decide⟩ <;>
    norm_num [checkExitConditions, checkExitConditionsClaimSpec, cexZeroTpPos]

/-- Claim C5 (amended): one evaluation returns STOP_LOSS if `stopLoss` is
set to a nonzero value and price ≤ it; otherwise TAKE_PROFIT if `takeProfit`
is set to a nonzero value and price ≥ it; otherwise nothing.  The stop-loss
check runs first, so the evaluation never yields both reasons and STOP_LOSS
wins when both thresholds are satisfied. -/
theorem checkExitConditions_priority (p : Position) (price : ℚ) :
    (∀ v, p.stopLoss = some v → v ≠ 0 → price ≤ v →
      checkExitConditions p price = some .STOP_LOSS) ∧
    ((∀ v, p.stopLoss = some v → v = 0 ∨ ¬ price ≤ v) →
      ∀ w, p.takeProfit = some w → w ≠ 0 → w ≤ price →
      checkExitConditions p price = some .TAKE_PROFIT) ∧
    ((∀ v, p.stopLoss = some v → v = 0 ∨ ¬ price ≤ v) →
      (∀ w, p.takeProfit = some w → w = 0 ∨ ¬ w ≤ price) →
      checkExitConditions p price = none) := by
  unfold checkExitConditions
  refine ⟨?_, ?_, ?_⟩
  · intro v hv hv0 hle
    simp [hv, hv0, hle]
  · intro hsl w hw hw0 hle
    rcases hsl' : p.stopLoss with _ | v
    · simp [hsl', hw, hw0, hle]
    · rcases hsl v hsl' with h0 | hnle
      · simp [hsl', h0, hw, hw0, hle]
      · simp [hsl', hnle, hw, hw0, hle]
  · intro hsl htp
    rcases hsl' : p.stopLoss with _ | v <;>
      rcases htp' : p.takeProfit with _ | w
    · simp [hsl', htp']
    · rcases htp w htp' with h0 | hnle
      · simp [hsl', htp', h0]
      · simp [hsl', htp', hnle]
    · rcases hsl v hsl' with h0 | hnle
      · simp [hsl', htp', h0]
      · simp [hsl', htp', hnle]
    · rcases hsl v hsl' with h0 | hnle <;> rcases htp w htp' with h0' | hnle'
      · simp [hsl', htp', h0, h0']
      · simp [hsl', htp', h0, hnle']
      · simp [hsl', htp', hnle, h0']
      · simp [hsl', htp', hnle, hnle']

/-- A position with both thresholds satisfiable at price 75 (stop-loss 100,
take-profit 50), for the C5 witness. -/
def demoBothPos : Position :=
  { id := "p1", userId := "u1", pair := "btc_idr", amount := 1,
    entryPrice := 120, cost := 120, stopLoss := some 100,
    takeProfit := some 50 }

/-- Witness for C5 (amended): at price 75 both thresholds are numerically
satisfied and the result is STOP_LOSS. -/
theorem checkExitConditions_priority_witness :
    (demoBothPos.stopLoss = some 100 ∧ (100 : ℚ) ≠ 0 ∧ (75 : ℚ) ≤ 100 ∧
      demoBothPos.takeProfit = some 50 ∧ (50 : ℚ) ≠ 0 ∧ (50 : ℚ) ≤ 75) ∧
    checkExitConditions demoBothPos 75 = some .STOP_LOSS :=
  ⟨⟨rfl, by norm_num, by norm_num, rfl, by norm_num, by norm_num⟩,
    (checkExitConditions_priority demoBothPos 75).1 100 rfl (by norm_num)
      (by norm_num)⟩

/-! ### C7 — low-confidence signals in the scheduled evaluation -/

/-- Settings with confidence threshold 1/2 (for claims C7 and C9). -/
def demoSettings : UserSettings :=
  { userId := "u1", maxOpenPositions := 3, minConfidenceToTrade := 1/2 }

/-- Claim C7, counterexample: a non-HOLD signal with confidence 3/10 below
the threshold 1/2, in the scheduled evaluation (not rate limited, limits
pass): the source records the rate-limit timestamp and persists nothing —
no SKIPPED signal is created, contradicting the claim. -/
theorem scheduledAnalysis_low_confidence_cex :
    runAnalysisForUser 10000000 0 demoSettings "btc_idr" 0 false
        (.ok (some { action := .BUY, confidence := 3/10 })) "s1"
      = { effects := [], lastRunSet := true } := by
  norm_num [runAnalysisForUser, demoSettings]

/-- Claim C7 (amended): in the Signal Scheduler's scheduled evaluation
(`runScheduledAnalysis`) a non-HOLD signal with confidence below the user's
threshold is never persisted — the step performs no store effect on any
branch, it only records the rate-limit timestamp.  Where a low-confidence
signal is persisted with status SKIPPED — the manual
`POST /api/signals/generate` endpoint and the legacy scheduled analysis
worker — the created SKIPPED record's confidence is strictly below the
threshold in force at its creation. -/
theorem scheduledAnalysis_discards_low_confidence (now lastRun : ℤ)
    (settings : UserSettings) (pair : String) (cnt : ℕ) (existing : Bool)
    (s : SignalResult) (sid : String)
    (hs : s.action ≠ .HOLD) (hconf : s.confidence < settings.minConfidenceToTrade)
    (esettings : UserSettings) (epair : String) (eexisting : Bool) (ecnt : ℕ)
    (eresult : Option SignalResult) (esid : String)
    (wsettings : UserSettings) (wuserId wpair : String) (wexisting : Bool)
    (wcnt : ℕ) (wsignal : Option SignalResult) (wsid wpid : String)
    (wbotAmount : ℚ) (wptc : Option Position) :
    (runAnalysisForUser now lastRun settings pair cnt existing
      (.ok (some s)) sid).effects = [] ∧
    (∀ srec, Effect.createSignal srec ∈
        generateSignalEndpoint esettings epair eexisting ecnt eresult esid →
      srec.status = .SKIPPED →
      srec.confidence < esettings.minConfidenceToTrade) ∧
    (∀ srec, Effect.createSignal srec ∈
        analysisWorkerStep wsettings wuserId wpair wexisting wcnt wsignal
          wsid wpid wbotAmount wptc →
      srec.status = .SKIPPED →
      srec.confidence < wsettings.minConfidenceToTrade) := by
  refine ⟨?_, ?_, ?_⟩
  · unfold runAnalysisForUser
    repeat' split
    all_goals simp_all
    all_goals repeat' split
    all_goals simp_all
    all_goals linarith
  · intro srec hmem hskip
    unfold generateSignalEndpoint at hmem
    rcases eresult with _ | es
    · repeat' split at hmem
      all_goals simp_all
    · repeat' split at hmem
      all_goals simp_all
  · intro srec hmem hskip
    unfold analysisWorkerStep at hmem
    rcases wsignal with _ | ws
    · repeat' split at hmem
      all_goals simp_all
    · repeat' split at hmem
      all_goals simp_all

/-- Witness for C7 (amended): a SELL signal at confidence 1/4 against
threshold 1/2 in the scheduled path, the manual endpoint with a BUY signal
at confidence 1/4, and the legacy worker with a BUY signal at
confidence 1/4. -/
theorem scheduledAnalysis_discards_low_confidence_witness :
    (SignalAction.SELL ≠ SignalAction.HOLD ∧
      (1/4 : ℚ) < demoSettings.minConfidenceToTrade) ∧
    ((runAnalysisForUser 10000000 0 demoSettings "btc_idr" 0 false
        (.ok (some { action := .SELL, confidence := 1/4 })) "s1").effects = [] ∧
      (∀ srec, Effect.createSignal srec ∈
          generateSignalEndpoint demoSettings "btc_idr" false 0
            (some { action := .BUY, confidence := 1/4 }) "s2" →
        srec.status = .SKIPPED →
        srec.confidence < demoSettings.minConfidenceToTrade) ∧
      (∀ srec, Effect.createSignal srec ∈
          analysisWorkerStep demoSettings "u1" "btc_idr" false 0
            (some { action := .BUY, confidence := 1/4 }) "s3" "p3" 0 none →
        srec.status = .SKIPPED →
        srec.confidence < demoSettings.minConfidenceToTrade)) :=
  ⟨⟨by decide, by norm_num [demoSettings]⟩,
    scheduledAnalysis_discards_low_confidence 10000000 0 demoSettings
      "btc_idr" 0 false { action := .SELL, confidence := 1/4 } "s1"
      (by decide) (by norm_num [demoSettings])
      demoSettings "btc_idr" false 0
      (some { action := .BUY, confidence := 1/4 }) "s2"
      demoSettings "u1" "btc_idr" false 0
      (some { action := .BUY, confidence := 1/4 }) "s3" "p3" 0 none⟩

/-! ### C9 — persistence of HOLD signals -/

/-- The HOLD signal record `POST /api/jobs/analyze` persists (claim C9). -/
def persistedHoldSignal : SignalRec :=
  { id := "s1", userId := "u1", pair := "btc_idr",
    action := .HOLD, confidence := 9/10, status := .PENDING }

/-- Claim C9: the current `POST /api/jobs/analyze` handler persists a HOLD
result as a PENDING signal — there is no HOLD check on that path, so the
"HOLD signals are never persisted" invariant is violated by the code. -/
theorem jobsAnalyze_persists_hold :
    jobsAnalyzeEndpoint demoSettings (some "btc_idr")
        (some { action := .HOLD, confidence := 9/10 }) "s1"
      = [.createSignal persistedHoldSignal]
      ∧ persistedHoldSignal.action = .HOLD := by
  constructor
  · norm_num [jobsAnalyzeEndpoint, demoSettings, persistedHoldSignal]
  · rfl

/-! ### C3 — position creation before fill -/

/-- AUTONOMOUS-mode settings for the legacy analysis worker (claim C3). -/
def autoSettings : UserSettings :=
  { userId := "u1", maxOpenPositions := 3, minConfidenceToTrade := 1/2,
    tradingMode := "AUTONOMOUS" }

/-- A high-confidence BUY signal result (claim C3). -/
def buySignalResult : SignalResult :=
  { action := .BUY, confidence := 9/10, entryPrice := 100, targetPrice := 120,
    stopLoss := 90, amountPercent := 5 }

/-- The approved BUY signal record the worker persists (claim C3). -/
def workerApprovedSignal : SignalRec :=
  { id := "sig1", userId := "u1", pair := "btc_idr",
    action := .BUY, confidence := 9/10, status := .APPROVED }

/-- The position the worker creates at signal time (claim C3). -/
def workerCreatedPosition : Position :=
  { id := "pos1", userId := "u1", pair := "btc_idr",
    amount := 5000, entryPrice := 100, cost := 500000,
    stopLoss := some 90, takeProfit := some 120,
    signalId := some "sig1", status := .OPEN }

/-- Claim C3: the legacy `analysisWorker` in AUTONOMOUS mode with a
high-confidence BUY signal creates a Position immediately at signal time —
the effect list contains a `createPosition` (from an estimated balance) but
no exchange `placeOrder`, so no entry order exists, let alone a FILLED one,
contradicting the "positions are created only on FILLED confirmation"
claim. -/
theorem analysisWorker_opens_position_at_signal_time :
    analysisWorkerStep autoSettings "u1" "btc_idr" false 0
        (some buySignalResult) "sig1" "pos1" 0 none
      = [ .createSignal workerApprovedSignal
          , .notify "u1" "SIGNAL"
          , .createPosition workerCreatedPosition
          , .updateSignal "sig1" .EXECUTED
          , .notify "u1" "TRADE" ] := by
  norm_num [analysisWorkerStep, autoSettings, buySignalResult, jsTruthy,
    workerApprovedSignal, workerCreatedPosition]
  split_ifs
  all_goals simp_all

/-! ### C10 — orchestrator cadence -/

/-- Claim C10, counterexample: `startScheduler` registers no 60-second
timer for the analysis cycle; the analysis tick is registered at
`5 * 60 * 1000` ms with no immediate run. -/
theorem startScheduler_analysis_interval_cex :
    (⟨.analysis, 5 * 60 * 1000, false⟩ : ScheduledJob) ∈ (startScheduler {}).jobs ∧
    (⟨.analysis, 60 * 1000, true⟩ : ScheduledJob) ∉ (startScheduler {}).jobs ∧
    (⟨.analysis, 60 * 1000, false⟩ : ScheduledJob) ∉ (startScheduler {}).jobs ∧
    (300000 : ℕ) ≠ 60000 := by
  decide

/-- Claim C10 (amended): `startScheduler` on a stopped orchestrator
registers the position monitor and the order reconciler every 60000 ms with
an immediate startup run each, and the analysis tick every 300000 ms
(5 minutes) with no immediate run. -/
theorem startScheduler_cadence :
    startScheduler {} =
      { isRunning := true
        jobs := [ ⟨.positionMonitor, 60000, true⟩
                  , ⟨.orderSync, 60000, true⟩
                  , ⟨.analysis, 300000, false⟩ ] } := by
  decide

/-! ### C8 — status mapping and skip on unchanged -/

/-- A gateway response reporting `filled` (witness for claim C8). -/
def demoGwFilled : GatewayOrder := { status := some "filled" }

/-- A tracked BUY order already stored as FILLED (witness for claim C8). -/
def demoFilledTrade : Trade :=
  { id := "t1", userId := "u1", orderId := some "o1", pair := "btc_idr",
    side := .BUY, price := 100, amount := 2, cost := 200, status := .FILLED }

/-- Store holding just that trade (witness for claim C8). -/
def demoTradeStore : Store := { trades := [demoFilledTrade] }

/-- Claim C8: for a gateway-reported status string `s` (nonempty, hence
truthy), the reconciler maps `filled`→FILLED, `partial`→PARTIAL,
`cancelled`→CANCELLED and anything else to PLACED; and when the mapped
status equals the stored status the step persists nothing (the store is
returned unchanged). -/
theorem syncOrder_status_mapping (now : ℕ) (pid : String)
    (gwOrder : GatewayOrder) (trade : Trade) (store : Store) (s : String)
    (hst : gwOrder.status = some s) (hne : s ≠ "") :
    (mapOrderStatus (gatewayOrderStatus gwOrder)
      = if s = "filled" then .FILLED else if s = "partial" then .PARTIAL
        else if s = "cancelled" then .CANCELLED else .PLACED) ∧
    (mapOrderStatus (gatewayOrderStatus gwOrder) = trade.status →
      syncOneTrade now pid true (.ok gwOrder) trade store = store) := by
  have hgs : gatewayOrderStatus gwOrder = s := by
    unfold gatewayOrderStatus
    rw [hst]
    simp [hne]
  constructor
  · rw [hgs]
    rfl
  · intro heq
    unfold syncOneTrade
    simp [heq]

/-- Witness for C8 at `s = "filled"` with a trade already FILLED. -/
theorem syncOrder_status_mapping_witness :
    (demoGwFilled.status = some "filled" ∧ "filled" ≠ "") ∧
    ((mapOrderStatus (gatewayOrderStatus demoGwFilled)
      = if "filled" = "filled" then TradeStatus.FILLED
        else if "filled" = "partial" then .PARTIAL
        else if "filled" = "cancelled" then .CANCELLED else .PLACED) ∧
    (mapOrderStatus (gatewayOrderStatus demoGwFilled) = demoFilledTrade.status →
      syncOneTrade 5 "p9" true (.ok demoGwFilled) demoFilledTrade demoTradeStore
        = demoTradeStore)) :=
  ⟨⟨rfl, by decide⟩,
    syncOrder_status_mapping 5 "p9" demoGwFilled demoFilledTrade
      demoTradeStore "filled" rfl (by decide)⟩

/-! ### C2 — idempotent position creation in the reconciler -/

/-- After one reconciliation step for `trade`, the number of positions
referencing `trade`'s exchange order id as entry order is at most
`max 1` of what it was: the step only creates a position after the
existence lookup reports none. -/
theorem count_after_syncOneTrade_le (now : ℕ) (pid : String) (keys : Bool)
    (gw : Except String GatewayOrder) (trade : Trade) (store : Store)
    (oid : String) (hoid : trade.orderId = some oid) :
    countPositionsForOrder (syncOneTrade now pid keys gw trade store).positions
        trade.userId oid
      ≤ max 1 (countPositionsForOrder store.positions trade.userId oid) := by
  unfold syncOneTrade
  rcases gw with e | order
  · split <;> exact le_max_right _ _
  · by_cases hk : keys
    · simp only [hk, not_true_eq_false, if_false]
      by_cases hst : mapOrderStatus (gatewayOrderStatus order) = trade.status
      · simp only [if_pos hst]
        exact le_max_right _ _
      · simp only [if_neg hst]
        by_cases hfb : mapOrderStatus (gatewayOrderStatus order) = .FILLED ∧
            trade.side = .BUY
        · simp only [if_pos hfb]
          rcases hfind : store.positions.find? (fun p =>
              decide (p.userId = trade.userId ∧
                p.entryTradeId = trade.orderId)) with _ | p
          · simp only [hfind]
            rw [hoid] at hfind
            have hzero : countPositionsForOrder store.positions
                trade.userId oid = 0 := by
              unfold countPositionsForOrder
              rw [List.length_eq_zero, List.filter_eq_nil_iff]
              intro p hp
              have := List.find?_eq_none.mp hfind p hp
              simpa [hoid] using this
            have hone : countPositionsForOrder
                (store.positions ++
                  [(openPosition pid store.positions
                    { userId := trade.userId, pair := trade.pair,
                      amount := trade.amount, entryPrice := trade.price,
                      cost := trade.cost, signalId := trade.signalId,
                      stopLoss := trade.stopLoss,
                      takeProfit := trade.takeProfit,
                      entryTradeId := trade.orderId }).1])
                trade.userId oid = 1 := by
              unfold countPositionsForOrder at hzero ⊢
              rw [List.filter_append, List.length_append, hzero]
              simp [openPosition, hoid]
            refine le_trans (le_of_eq ?_) (le_max_left 1 _)
            exact hone
          · simp only [hfind]
            exact le_max_right _ _
        · simp only [if_neg hfb]
          exact le_max_right _ _
    · have hk' : keys = false := by simpa using hk
      simp only [hk']
      exact le_max_right _ _

/-- Claim C2: running the reconciliation step twice over the same tracked
BUY order (replay/overlapping cycle, both runs seeing the same stale stored
status) creates at most one Position: starting from a store with no
position referencing the order id, after two runs at most one position
references it as its entry order. -/
theorem syncOrder_idempotent_creation (now1 now2 : ℕ) (pid1 pid2 : String)
    (keys1 keys2 : Bool) (gw1 gw2 : Except String GatewayOrder)
    (trade : Trade) (store : Store) (oid : String)
    (hoid : trade.orderId = some oid) (hside : trade.side = .BUY)
    (hinit : countPositionsForOrder store.positions trade.userId oid = 0) :
    countPositionsForOrder
        (syncOneTrade now2 pid2 keys2 gw2 trade
          (syncOneTrade now1 pid1 keys1 gw1 trade store)).positions
        trade.userId oid ≤ 1 := by
  have h1 := count_after_syncOneTrade_le now1 pid1 keys1 gw1 trade store oid hoid
  rw [hinit] at h1
  have h2 := count_after_syncOneTrade_le now2 pid2 keys2 gw2 trade
    (syncOneTrade now1 pid1 keys1 gw1 trade store) oid hoid
  have hmax : max 1 (countPositionsForOrder
      (syncOneTrade now1 pid1 keys1 gw1 trade store).positions
      trade.userId oid) ≤ 1 := by
    exact max_le (le_refl 1) (by simpa using h1)
  exact le_trans h2 hmax

/-- Store and trade for the C2 witness: a PLACED BUY order whose gateway
status has become `filled`, reconciled twice. -/
def demoPlacedTrade : Trade :=
  { id := "t1", userId := "u1", orderId := some "o1", pair := "btc_idr",
    side := .BUY, price := 100, amount := 2, cost := 200, status := .PLACED }

/-- Witness for C2: two reconciliation runs of the same filled BUY order
leave at most one (here: exactly one) position referencing order `o1`. -/
theorem syncOrder_idempotent_creation_witness :
    (demoPlacedTrade.orderId = some "o1" ∧ demoPlacedTrade.side = .BUY ∧
      countPositionsForOrder ({ trades := [demoPlacedTrade] } : Store).positions
        "u1" "o1" = 0) ∧
    countPositionsForOrder
        (syncOneTrade 2 "p2" true (.ok demoGwFilled) demoPlacedTrade
          (syncOneTrade 1 "p1" true (.ok demoGwFilled) demoPlacedTrade
            { trades := [demoPlacedTrade] })).positions
        "u1" "o1" ≤ 1 :=
  ⟨⟨rfl, rfl, rfl⟩,
    syncOrder_idempotent_creation 1 2 "p1" "p2" true true
      (.ok demoGwFilled) (.ok demoGwFilled) demoPlacedTrade
      { trades := [demoPlacedTrade] } "o1" rfl rfl rfl⟩

/-! ### C6 — per-position failure isolation in the monitor -/

theorem findPos_some_id (ps : List Position) (x : String) (p : Position)
    (h : findPos ps x = some p) : p.id = x := by
  induction ps with
  | nil => simp [findPos] at h
  | cons q rest ih =>
    simp only [findPos] at h
    split at h
    · cases h
      assumption
    · exact ih h

theorem findPos_map_update_ne (ps : List Position) (pid x : String)
    (upd : Position) (hupd : upd.id = pid) (hx : x ≠ pid) :
    findPos (ps.map fun q => if q.id = pid then upd else q) x = findPos ps x := by
  induction ps with
  | nil => rfl
  | cons q rest ih =>
    simp only [List.map_cons, findPos]
    by_cases hq : q.id = pid
    · rw [if_pos hq]
      rw [if_neg (show ¬ upd.id = x by rw [hupd]; exact Ne.symm hx)]
      rw [if_neg (show ¬ q.id = x by rw [hq]; exact Ne.symm hx)]
      exact ih
    · rw [if_neg hq]
      by_cases hqx : q.id = x
      · rw [if_pos hqx, if_pos hqx]
      · rw [if_neg hqx, if_neg hqx]
        exact ih

theorem findPos_map_update_self (ps : List Position) (pid : String)
    (upd orig : Position) (hupd : upd.id = pid)
    (h : findPos ps pid = some orig) :
    findPos (ps.map fun q => if q.id = pid then upd else q) pid = some upd := by
  induction ps with
  | nil => simp [findPos] at h
  | cons q rest ih =>
    simp only [List.map_cons, findPos] at h ⊢
    by_cases hq : q.id = pid
    · rw [if_pos hq, if_pos (show upd.id = pid from hupd)]
    · rw [if_neg hq] at h
      rw [if_neg hq, if_neg hq]
      exact ih h

theorem monitorStep_findPos_ne (now : ℕ) (summaries : String → Option ℚ)
    (hasKeys : String → Bool) (tradeOracle : String → Except String ℕ)
    (st : Store) (position : Position) (x : String) (hx : x ≠ position.id) :
    findPos (monitorStep now summaries hasKeys tradeOracle st position).positions x
      = findPos st.positions x := by
  unfold monitorStep
  split
  · rfl
  · split
    · rfl
    · split
      · rfl
      · split
        · rfl
        · simp only [closePosition]
          split
          · rfl
          · rename_i res heq
            rcases hfind : findPos st.positions position.id with _ | orig
            · rw [hfind] at heq
              cases heq
            · rw [hfind] at heq
              cases heq
              exact findPos_map_update_ne st.positions position.id x _
                (findPos_some_id st.positions position.id orig hfind) hx

theorem monitorStep_findPos_self (now : ℕ) (summaries : String → Option ℚ)
    (hasKeys : String → Bool) (tradeOracle : String → Except String ℕ)
    (st : Store) (position : Position)
    (hcur : findPos st.positions position.id = some position) :
    findPos (monitorStep now summaries hasKeys tradeOracle st position).positions
        position.id
      = some (monitorOutcome now summaries hasKeys tradeOracle position) := by
  unfold monitorStep monitorOutcome
  split
  · exact hcur
  · split
    · exact hcur
    · split
      · exact hcur
      · split
        · exact hcur
        · simp only [closePosition]
          split
          · rename_i heq
            rw [hcur] at heq
            cases heq
          · rename_i res heq
            rw [hcur] at heq
            cases heq
            exact findPos_map_update_self st.positions position.id _ position
              rfl hcur

theorem findPos_of_nodup_mem (ps : List Position)
    (hnodup : (ps.map Position.id).Nodup) (p : Position) (hp : p ∈ ps) :
    findPos ps p.id = some p := by
  induction ps with
  | nil => cases hp
  | cons q rest ih =>
    rcases List.mem_cons.mp hp with heq | hmem
    · subst heq
      simp [findPos]
    · have hq : ¬ q.id = p.id := fun h =>
        (List.nodup_cons.mp hnodup).1 (h ▸ List.mem_map_of_mem Position.id hmem)
      simp only [findPos]
      rw [if_neg hq]
      exact ih (List.nodup_cons.mp hnodup).2 hmem

theorem foldl_monitorStep_findPos (now : ℕ) (summaries : String → Option ℚ)
    (hasKeys : String → Bool) (tradeOracle : String → Except String ℕ)
    (l : List Position) :
    ∀ (st : Store), (l.map Position.id).Nodup →
      (∀ p ∈ l, findPos st.positions p.id = some p) →
      (∀ x, (∀ p ∈ l, p.id ≠ x) →
        findPos (l.foldl (monitorStep now summaries hasKeys tradeOracle)
            st).positions x
          = findPos st.positions x) ∧
      (∀ p ∈ l,
        findPos (l.foldl (monitorStep now summaries hasKeys tradeOracle)
            st).positions p.id
          = some (monitorOutcome now summaries hasKeys tradeOracle p)) := by
  induction l with
  | nil =>
    intro st _ _
    exact ⟨fun x _ => rfl, fun p hp => absurd hp (List.not_mem_nil p)⟩
  | cons q rest ih =>
    intro st hnodup hcur
    have hnodup' : (rest.map Position.id).Nodup := (List.nodup_cons.mp hnodup).2
    have hqnot : q.id ∉ rest.map Position.id := (List.nodup_cons.mp hnodup).1
    have hcur' : ∀ p ∈ rest,
        findPos (monitorStep now summaries hasKeys tradeOracle st q).positions
          p.id = some p := by
      intro p hp
      have hne : p.id ≠ q.id := fun h =>
        hqnot (h ▸ List.mem_map_of_mem Position.id hp)
      rw [monitorStep_findPos_ne now summaries hasKeys tradeOracle st q p.id hne]
      exact hcur p (List.mem_cons_of_mem q hp)
    obtain ⟨hrest_ne, hrest_mem⟩ :=
      ih (monitorStep now summaries hasKeys tradeOracle st q) hnodup' hcur'
    constructor
    · intro x hxne
      rw [List.foldl_cons]
      rw [hrest_ne x fun p hp => hxne p (List.mem_cons_of_mem q hp)]
      exact monitorStep_findPos_ne now summaries hasKeys tradeOracle st q x
        fun h => (hxne q (List.mem_cons_self q rest)) h.symm
    · intro p hp
      rcases List.mem_cons.mp hp with heq | hmem
      · subst heq
        rw [List.foldl_cons]
        rw [hrest_ne p.id fun r hr hcontra =>
          hqnot (hcontra ▸ List.mem_map_of_mem Position.id hr)]
        exact monitorStep_findPos_self now summaries hasKeys tradeOracle st p
          (hcur p (List.mem_cons_self p rest))
      · rw [List.foldl_cons]
        exact hrest_mem p hmem

/-- Claim C6: the monitor cycle isolates per-position SELL failures.  With
distinct position ids, after one `checkPositionsForSLTP` cycle every fetched
OPEN position ends up exactly at its own isolated outcome (so one position's
processing never affects another's); a position whose SELL placement throws
is left untouched — in particular it keeps status OPEN — while any other
triggered position with a successful SELL is closed with its trigger reason.
The cycle itself is a total function (the source's per-position `try/catch`
is the `Except` match inside `monitorStep`), so it completes without
throwing on every input. -/
theorem positionMonitor_isolates_failures (now : ℕ)
    (summaries : String → Option ℚ) (hasKeys : String → Bool)
    (tradeOracle : String → Except String ℕ) (store : Store)
    (hnodup : (store.positions.map Position.id).Nodup) :
    (∀ p ∈ store.positions, p.status = .OPEN →
      findPos (checkPositionsForSLTP now summaries hasKeys tradeOracle
          store).positions p.id
        = some (monitorOutcome now summaries hasKeys tradeOracle p)) ∧
    (∀ p e, hasKeys p.userId = true → tradeOracle p.id = .error e →
      monitorOutcome now summaries hasKeys tradeOracle p = p) ∧
    (∀ p price reason n, summaries p.pair = some price →
      checkExitConditions p price = some reason →
      hasKeys p.userId = true → tradeOracle p.id = .ok n →
      (monitorOutcome now summaries hasKeys tradeOracle p).status = .CLOSED ∧
      (monitorOutcome now summaries hasKeys tradeOracle p).closeReason
        = some (exitToClose reason)) := by
  refine ⟨?_, ?_, ?_⟩
  · intro p hp hopen
    have hsub : ((store.positions.filter fun p =>
        decide (p.status = .OPEN)).map Position.id).Nodup :=
      List.Nodup.sublist (List.Sublist.map Position.id
        (List.filter_sublist store.positions)) hnodup
    have hmem : p ∈ store.positions.filter fun p =>
        decide (p.status = .OPEN) :=
      List.mem_filter.mpr ⟨hp, by simp [hopen]⟩
    have hcur : ∀ q ∈ store.positions.filter fun p =>
        decide (p.status = .OPEN), findPos store.positions q.id = some q :=
      fun q hq => findPos_of_nodup_mem store.positions hnodup q
        (List.mem_of_mem_filter hq)
    exact (foldl_monitorStep_findPos now summaries hasKeys tradeOracle
      (store.positions.filter fun p => decide (p.status = .OPEN))
      store hsub hcur).2 p hmem
  · intro p e hk herr
    unfold monitorOutcome
    rcases hs : summaries p.pair with _ | price
    · rfl
    · rcases hc : checkExitConditions p price with _ | reason
      · simp [hc]
      · simp [hc, hk, herr]
  · intro p price reason n hs hc hk hok
    unfold monitorOutcome
    rw [hs]
    simp [hc, hk, hok, closedVersion]

/-- Positions, ticker, credentials and SELL-order oracle for the C6
witness: three OPEN positions all triggering their stop-loss at price 50;
the exchange fails (only) for position `p2`. -/
def demoMonPos1 : Position :=
  { id := "p1", userId := "u1", pair := "a_idr", amount := 2,
    entryPrice := 100, cost := 200, stopLoss := some 60, status := .OPEN }

/-- Second monitored position (its SELL order will fail). -/
def demoMonPos2 : Position :=
  { id := "p2", userId := "u2", pair := "a_idr", amount := 3,
    entryPrice := 90, cost := 270, stopLoss := some 60, status := .OPEN }

/-- Third monitored position. -/
def demoMonPos3 : Position :=
  { id := "p3", userId := "u3", pair := "a_idr", amount := 5,
    entryPrice := 80, cost := 400, stopLoss := some 60, status := .OPEN }

/-- Store holding the three monitored positions. -/
def demoMonStore : Store :=
  { positions := [demoMonPos1, demoMonPos2, demoMonPos3] }

/-- Ticker snapshot: `a_idr` trades at 50 (below every stop-loss). -/
def demoMonSummaries : String → Option ℚ :=
  fun pair => if pair = "a_idr" then some 50 else none

/-- All three owners have exchange credentials. -/
def demoMonKeys : String → Bool := fun _ => true

/-- The exchange rejects the SELL for `p2` and accepts the others. -/
def demoMonOracle : String → Except String ℕ :=
  fun pid => if pid = "p2" then .error "network timeout" else .ok 7

/-- Witness for C6: in the concrete three-position cycle, `p2` (whose SELL
fails) is left unchanged and still OPEN, while `p1` and `p3` are closed
with reason STOP_LOSS. -/
theorem positionMonitor_isolates_failures_witness :
    (demoMonStore.positions.map Position.id).Nodup ∧
    (findPos (checkPositionsForSLTP 9 demoMonSummaries demoMonKeys
        demoMonOracle demoMonStore).positions demoMonPos2.id
      = some demoMonPos2 ∧
    demoMonPos2.status = .OPEN ∧
    findPos (checkPositionsForSLTP 9 demoMonSummaries demoMonKeys
        demoMonOracle demoMonStore).positions demoMonPos1.id
      = some (closedVersion demoMonPos1 50 (exitToClose .STOP_LOSS) 9) ∧
    findPos (checkPositionsForSLTP 9 demoMonSummaries demoMonKeys
        demoMonOracle demoMonStore).positions demoMonPos3.id
      = some (closedVersion demoMonPos3 50 (exitToClose .STOP_LOSS) 9)) := by
  have hmain := positionMonitor_isolates_failures 9 demoMonSummaries
    demoMonKeys demoMonOracle demoMonStore (by decide)
  have hout2 : monitorOutcome 9 demoMonSummaries demoMonKeys demoMonOracle
      demoMonPos2 = demoMonPos2 :=
    hmain.2.1 demoMonPos2 "network timeout" rfl rfl
  have hc1 : checkExitConditions demoMonPos1 50 = some .STOP_LOSS := by
    norm_num [checkExitConditions, demoMonPos1]
  have hc3 : checkExitConditions demoMonPos3 50 = some .STOP_LOSS := by
    norm_num [checkExitConditions, demoMonPos3]
  have hout1 : monitorOutcome 9 demoMonSummaries demoMonKeys demoMonOracle
      demoMonPos1 = closedVersion demoMonPos1 50 (exitToClose .STOP_LOSS) 9 := by
    unfold monitorOutcome
    rw [show demoMonSummaries demoMonPos1.pair = some 50 from rfl]
    norm_num [hc1, demoMonKeys, demoMonOracle]
    rfl
  have hout3 : monitorOutcome 9 demoMonSummaries demoMonKeys demoMonOracle
      demoMonPos3 = closedVersion demoMonPos3 50 (exitToClose .STOP_LOSS) 9 := by
    unfold monitorOutcome
    rw [show demoMonSummaries demoMonPos3.pair = some 50 from rfl]
    norm_num [hc3, demoMonKeys, demoMonOracle]
    rfl
  refine ⟨by decide, ?_, rfl, ?_, ?_⟩
  · rw [hmain.1 demoMonPos2
      (List.mem_cons_of_mem _ (List.mem_cons_self _ _)) rfl, hout2]
  · rw [hmain.1 demoMonPos1 (List.mem_cons_self _ _) rfl, hout1]
  · rw [hmain.1 demoMonPos3
      (List.mem_cons_of_mem _ (List.mem_cons_of_mem _
        (List.mem_cons_self _ _))) rfl, hout3]

end BotKid
